import Mathlib

/-!
Verification of the streamdeck command/toggle runtime.

The Rust sources are embedded shallowly:
* pure data types become Lean inductives/structures with the source field names;
* the toggle-state store (a HashMap behind an RwLock) is modelled extensionally
  as a total function from button names to states, absent keys reading Unknown
  exactly as get_state does;
* calls into the operating system (spawning probe and action commands) are
  modelled by passing the observed process outcome as an explicit argument,
  and the functions of the source are translated over those outcomes.
-/

namespace StreamdeckNix

/-- ToggleState from toggle_state.rs: the tri-state of a toggle button. -/
inductive ToggleState where
  | On : ToggleState
  | Off : ToggleState
  | Unknown : ToggleState
deriving DecidableEq, Repr

/-- ToggleState::toggle from toggle_state.rs: returns the opposite state,
Unknown is fixed. -/
def ToggleState.toggle : ToggleState → ToggleState
  | ToggleState.On => ToggleState.Off
  | ToggleState.Off => ToggleState.On
  | ToggleState.Unknown => ToggleState.Unknown

/-- ToggleState::is_known from toggle_state.rs. -/
def ToggleState.is_known : ToggleState → Bool
  | ToggleState.On => true
  | ToggleState.Off => true
  | ToggleState.Unknown => false

/-- Extensional model of the ToggleStateManager store
(HashMap from button name to state): a total function, with the
absent-key default Unknown baked in by the initial store. -/
abbrev Store := String → ToggleState

/-- The store of ToggleStateManager::new: no entries, every read is Unknown. -/
def emptyStore : Store := fun _ => ToggleState.Unknown

/-- ToggleStateManager::get_state: the stored value (absent keys read Unknown
via the store model). -/
def get_state (s : Store) (button_name : String) : ToggleState :=
  s button_name

/-- ToggleStateManager::set_state: whole-value upsert for one key. -/
def set_state (s : Store) (button_name : String) (state : ToggleState) : Store :=
  fun n => if n = button_name then state else s n

/-- ToggleStateManager::toggle_state: read the current value, toggle it,
write it back, return it.  The source performs the read under a read lock and
the write under a separately acquired write lock; this definition is the
sequential (uninterleaved) behaviour of one call. -/
def toggle_state (button_name : String) (s : Store) : ToggleState × Store :=
  let current_state := get_state s button_name
  let new_state := current_state.toggle
  (new_state, set_state s button_name new_state)

/-- One call of toggle_state split at its lock boundary (toggle_state.rs):
the read under the read lock is one atomic phase, the toggle+write under the
write lock is a second atomic phase; nothing is held in between. -/
inductive TogglePhase where
  | start : TogglePhase
  | readDone (v : ToggleState) : TogglePhase
  | finished (ret : ToggleState) : TogglePhase
deriving DecidableEq, Repr

/-- One atomic step of an in-flight toggle_state call against the shared
store: first the locked read, then the locked toggle-and-write. -/
def toggle_step (button_name : String) : TogglePhase → Store → TogglePhase × Store
  | TogglePhase.start, s =>
      (TogglePhase.readDone (get_state s button_name), s)
  | TogglePhase.readDone v, s =>
      (TogglePhase.finished v.toggle, set_state s button_name v.toggle)
  | TogglePhase.finished r, s => (TogglePhase.finished r, s)

/-- Interleaved execution of two concurrent toggle_state calls on the same
name: the schedule picks which call advances by one atomic step. -/
def run_schedule (button_name : String) :
    List Bool → TogglePhase × TogglePhase × Store → TogglePhase × TogglePhase × Store
  | [], st => st
  | pick :: rest, (p1, p2, s) =>
      if pick then
        let r := toggle_step button_name p1 s
        run_schedule button_name rest (r.1, p2, r.2)
      else
        let r := toggle_step button_name p2 s
        run_schedule button_name rest (p1, r.1, r.2)

/-- ProbeResult from probe.rs. -/
structure ProbeResult where
  success : Bool
  exit_code : Option Int
  stdout : String
  stderr : String
deriving DecidableEq, Repr

/-- ProbeResult::success (the constructor; named mkSuccess because the field
of the same name exists). -/
def ProbeResult.mkSuccess (exit_code : Int) (stdout stderr : String) : ProbeResult :=
  { success := true, exit_code := some exit_code, stdout := stdout, stderr := stderr }

/-- ProbeResult::failure (the constructor). -/
def ProbeResult.mkFailure (exit_code : Option Int) (stdout stderr : String) : ProbeResult :=
  { success := false, exit_code := exit_code, stdout := stdout, stderr := stderr }

/-- ProbeResult::execution_error (the constructor). -/
def ProbeResult.mkExecutionError (error_message : String) : ProbeResult :=
  { success := false, exit_code := none, stdout := "", stderr := error_message }

/-- ProbeResult::is_success from probe.rs: ran with success flag and exit
code 0. -/
def ProbeResult.is_success (r : ProbeResult) : Bool :=
  r.success && r.exit_code == some 0

/-- ProbeResult::is_command_failure from probe.rs: not success but an exit
code is present. -/
def ProbeResult.is_command_failure (r : ProbeResult) : Bool :=
  !r.success && r.exit_code.isSome

/-- ProbeResult::is_execution_error from probe.rs: not success and no exit
code. -/
def ProbeResult.is_execution_error (r : ProbeResult) : Bool :=
  !r.success && r.exit_code.isNone

/-- The observable outcome of std::process::Output for a completed child
process: ExitStatus::code (None when killed by a signal), stdout and
stderr. -/
structure ProcessOutput where
  code : Option Int
  stdout : String
  stderr : String
deriving DecidableEq, Repr

/-- ExitStatus::success: the process exited normally with code 0. -/
def ProcessOutput.statusSuccess (o : ProcessOutput) : Bool :=
  o.code == some 0

/-- execute_probe_command from probe.rs, over the outcome of cmd.output():
Ok maps to success/failure by the exit status, Err to an execution error
with the spawn error message. -/
def execute_probe_command (outcome : Except String ProcessOutput) : ProbeResult :=
  match outcome with
  | Except.ok output =>
      if output.statusSuccess then
        ProbeResult.mkSuccess (output.code.getD 0) output.stdout output.stderr
      else
        ProbeResult.mkFailure output.code output.stdout output.stderr
  | Except.error e =>
      ProbeResult.mkExecutionError ("Command execution failed: " ++ e)

/-- ProbeConfig from probe.rs. -/
structure ProbeConfig where
  timeout_ms : Nat
  empty_stdout_is_success : Bool
  success_indicators : List String
  failure_indicators : List String
deriving DecidableEq, Repr

/-- ProbeConfig::default from probe.rs. -/
def ProbeConfig.default : ProbeConfig :=
  { timeout_ms := 5000
    empty_stdout_is_success := true
    success_indicators := []
    failure_indicators := [] }

/-- Rust str::contains for a string pattern: substring containment. -/
def strContains (s pat : String) : Bool :=
  decide (pat.toList <:+: s.toList)

/-- Rust char::is_whitespace: the Unicode White_Space property — TAB, LF,
VT, FF, CR, SPACE, NEL, NBSP, OGHAM SPACE MARK, the U+2000..U+200A spaces,
LINE SEPARATOR, PARAGRAPH SEPARATOR, NARROW NBSP, MEDIUM MATHEMATICAL
SPACE, IDEOGRAPHIC SPACE. -/
def charIsWhitespace (c : Char) : Bool :=
  decide ((0x9 ≤ c.toNat ∧ c.toNat ≤ 0xD) ∨ c.toNat = 0x20 ∨ c.toNat = 0x85 ∨
    c.toNat = 0xA0 ∨ c.toNat = 0x1680 ∨
    (0x2000 ≤ c.toNat ∧ c.toNat ≤ 0x200A) ∨ c.toNat = 0x2028 ∨
    c.toNat = 0x2029 ∨ c.toNat = 0x202F ∨ c.toNat = 0x205F ∨ c.toNat = 0x3000)

/-- Rust stdout.trim().is_empty(): trim strips exactly the leading and
trailing White_Space characters, so the trimmed string is empty iff every
character is whitespace in Rust's char::is_whitespace sense. -/
def trimIsEmpty (s : String) : Bool :=
  s.toList.all (fun c => charIsWhitespace c)

/-- evaluate_custom_indicators from probe.rs: failure indicators first, then
success indicators, then the trimmed-empty-stdout rule, else None. -/
def evaluate_custom_indicators (stdout : String) (config : ProbeConfig) : Option Bool :=
  if config.failure_indicators.any (fun indicator => strContains stdout indicator) then
    some false
  else if config.success_indicators.any (fun indicator => strContains stdout indicator) then
    some true
  else if trimIsEmpty stdout then
    some config.empty_stdout_is_success
  else
    none

/-- The observable outcome of the timed cmd.output() call inside
execute_probe_command_with_config: completed output, spawn error, or
timeout. -/
inductive SpawnOutcome where
  | completed (output : ProcessOutput) : SpawnOutcome
  | spawnError (msg : String) : SpawnOutcome
  | timedOut : SpawnOutcome
deriving DecidableEq, Repr

/-- execute_probe_command_with_config from probe.rs, over the observed
process outcome: custom indicators override the exit status; spawn errors
and timeouts are execution errors. -/
def execute_probe_command_with_config (config : ProbeConfig)
    (outcome : SpawnOutcome) : ProbeResult :=
  match outcome with
  | SpawnOutcome.completed output =>
      let exit_success := output.statusSuccess
      let custom_success := evaluate_custom_indicators output.stdout config
      let final_success :=
        match custom_success with
        | some success => success
        | none => exit_success
      if final_success then
        ProbeResult.mkSuccess (output.code.getD 0) output.stdout output.stderr
      else
        ProbeResult.mkFailure output.code output.stdout output.stderr
  | SpawnOutcome.spawnError e =>
      ProbeResult.mkExecutionError ("Command execution failed: " ++ e)
  | SpawnOutcome.timedOut =>
      ProbeResult.mkExecutionError
        ("Command timed out after " ++ toString config.timeout_ms ++ "ms")

/-- ToggleMode from config.rs: one toggling command, or separate on/off
commands. -/
inductive ToggleMode where
  | single (command : String) (args : List String) : ToggleMode
  | separate (on_command : String) (on_args : List String)
      (off_command : String) (off_args : List String) : ToggleMode
deriving DecidableEq, Repr

/-- ToggleCommandResult from toggle_command.rs. -/
structure ToggleCommandResult where
  success : Bool
  new_state : ToggleState
  exit_code : Option Int
  stdout : String
  stderr : String
  error_message : Option String
deriving DecidableEq, Repr

/-- ToggleCommandResult::success (the constructor; named mkSuccess because
the field of the same name exists). -/
def ToggleCommandResult.mkSuccess (new_state : ToggleState) (exit_code : Int)
    (stdout stderr : String) : ToggleCommandResult :=
  { success := true, new_state := new_state, exit_code := some exit_code
    stdout := stdout, stderr := stderr, error_message := none }

/-- ToggleCommandResult::failure (the constructor): success false, new_state
is the given pre-attempt current state, error_message populated. -/
def ToggleCommandResult.mkFailure (current_state : ToggleState)
    (exit_code : Option Int) (stdout stderr error_message : String) :
    ToggleCommandResult :=
  { success := false, new_state := current_state, exit_code := exit_code
    stdout := stdout, stderr := stderr, error_message := some error_message }

/-- The outside-world inputs of one execute_toggle_command run: the outcome
of the initial probe (consumed only when a probe is configured), the outcome
of execute_command_with_output for the selected action command (exit code,
stdout, stderr on success of the spawn; the message on a spawn/wait error),
and the outcome of the verification probe (consumed only when a probe is
configured and the action exited 0). -/
structure ToggleEnv where
  probe1 : Except String ProcessOutput
  cmdOutcome : Except String (Int × String × String)
  probe2 : Except String ProcessOutput

/-- The step-1 probe-to-state map of execute_toggle_command (lines 66-72 of
toggle_command.rs): probe success maps to On, command failure to Off,
anything else (execution error) to Unknown. -/
def probe_to_state (pr : ProbeResult) : ToggleState :=
  if pr.is_success then ToggleState.On
  else if pr.is_command_failure then ToggleState.Off
  else ToggleState.Unknown

/-- The verification map of execute_toggle_command (lines 142-150 of
toggle_command.rs): probe success maps to On, command failure to Off, and an
execution error keeps the expected state (with a warning). -/
def verified_state (pr : ProbeResult) (expected : ToggleState) : ToggleState :=
  if pr.is_success then ToggleState.On
  else if pr.is_command_failure then ToggleState.Off
  else expected

/-- Step 1 of execute_toggle_command: with a probe configured, run it, map
its result to a state, write that state into the store; otherwise read the
store.  Returns the current state together with the store as of after this
step. -/
def current_state_and_store (button_name : String)
    (probe_command : Option String) (env : ToggleEnv) (store : Store) :
    ToggleState × Store :=
  match probe_command with
  | some _ =>
      let probe_result := execute_probe_command env.probe1
      let probed_state := probe_to_state probe_result
      (probed_state, set_state store button_name probed_state)
  | none => (get_state store button_name, store)

/-- The action-selection match of execute_toggle_command (lines 85-117 of
toggle_command.rs): which command and args run, and the expected new
state. -/
def select_action (mode : ToggleMode) (state : ToggleState) :
    String × List String × ToggleState :=
  match mode, state with
  | ToggleMode.single command args, s =>
      let new_state :=
        match s with
        | ToggleState.On => ToggleState.Off
        | ToggleState.Off => ToggleState.On
        | ToggleState.Unknown => ToggleState.On
      (command, args, new_state)
  | ToggleMode.separate on_command on_args off_command off_args, s =>
      match s with
      | ToggleState.On => (off_command, off_args, ToggleState.Off)
      | ToggleState.Off => (on_command, on_args, ToggleState.On)
      | ToggleState.Unknown => (on_command, on_args, ToggleState.On)

/-- execute_toggle_command from toggle_command.rs over the observed process
outcomes: step 1 determines (and with a probe, stores) the current state;
the mode selects the action command, whose observed outcome is
env.cmdOutcome; exit 0 stores the expected state and, with a probe, verifies
and stores the verified state; otherwise the failure result carries the
pre-attempt current state and no further store write happens.  Returns the
result together with the final store. -/
def execute_toggle_command (button_name : String) (mode : ToggleMode)
    (probe_command : Option String) (env : ToggleEnv) (store : Store) :
    ToggleCommandResult × Store :=
  let cs := current_state_and_store button_name probe_command env store
  let current_state := cs.1
  let store1 := cs.2
  let sel := select_action mode current_state
  let expected_new_state := sel.2.2
  match env.cmdOutcome with
  | Except.ok (exit_code, stdout, stderr) =>
      if exit_code = 0 then
        let store2 := set_state store1 button_name expected_new_state
        match probe_command with
        | some _ =>
            let verify_probe := execute_probe_command env.probe2
            let vstate := verified_state verify_probe expected_new_state
            (ToggleCommandResult.mkSuccess vstate exit_code stdout stderr,
             set_state store2 button_name vstate)
        | none =>
            (ToggleCommandResult.mkSuccess expected_new_state exit_code stdout stderr,
             store2)
      else
        (ToggleCommandResult.mkFailure current_state (some exit_code) stdout stderr
          ("Toggle command failed with exit code " ++ toString exit_code),
         store1)
  | Except.error e =>
      (ToggleCommandResult.mkFailure current_state none "" ""
        ("Failed to execute toggle command: " ++ e),
       store1)

/-- Holds when the selected action command did not exit 0: either the spawn
or wait failed, or the process exited non-zero. -/
def cmd_attempt_failed (outcome : Except String (Int × String × String)) : Prop :=
  match outcome with
  | Except.ok (exit_code, _, _) => exit_code ≠ 0
  | Except.error _ => True

/-- Button from config.rs, restricted to the variants consumed by the
renderer in button.rs (its match covers Command, Menu and Back). -/
inductive Button where
  | command (name : String) (cmd : String) (args : List String)
      (icon : Option String) : Button
  | menu (name : String) (buttons : List Button) (icon : Option String) : Button
  | back (name : String) (icon : Option String) : Button

/-- Menu from config.rs. -/
structure Menu where
  name : String
  buttons : List Button

/-- CommanderPlugin from button.rs: a menu plus an optional owned parent
plugin. -/
inductive CommanderPlugin where
  | mk (menu : Menu) (parent : Option CommanderPlugin) : CommanderPlugin

/-- The menu of a CommanderPlugin. -/
def CommanderPlugin.menu : CommanderPlugin → Menu
  | CommanderPlugin.mk m _ => m

/-- The parent of a CommanderPlugin. -/
def CommanderPlugin.parent : CommanderPlugin → Option CommanderPlugin
  | CommanderPlugin.mk _ p => p

/-- CommanderPlugin::new from button.rs. -/
def CommanderPlugin.new (menu : Menu) : CommanderPlugin :=
  CommanderPlugin.mk menu none

/-- CommanderPlugin::new_with_parent from button.rs. -/
def CommanderPlugin.new_with_parent (menu : Menu) (parent : CommanderPlugin) :
    CommanderPlugin :=
  CommanderPlugin.mk menu (some parent)

/-- The content bound into one grid cell by create_view_from_menu: a
set_button click cell for a Command button, or a set_navigation cell
targeting another plugin node (used both for submenus and for the automatic
back affordance). -/
inductive Cell where
  | click (name : String) (cmd : String) (args : List String)
      (icon : Option String) : Cell
  | navTo (target : CommanderPlugin) (name : String) (icon : Option String) : Cell

/-- The button-placing loop of create_view_from_menu (lines 108-184 of
button.rs), carrying the row, col and button_index counters: index 14
triggers the reservation for the automatic back button (and thereby the
break), a row of 3 breaks, a Command or Menu button emits a cell at
(col, row) and advances, a Back button emits nothing but advances the same
way. -/
def placeButtons (self : CommanderPlugin) :
    List Button → Nat → Nat → Nat → List (Nat × Nat × Cell)
  | [], _, _, _ => []
  | button :: rest, row0, col0, idx0 =>
      let row := if idx0 = 14 then 3 else row0
      let col := if idx0 = 14 then 0 else col0
      let idx := if idx0 = 14 then idx0 + 1 else idx0
      if 3 ≤ row then []
      else
        match button with
        | Button.command name cmd args icon =>
            (col, row, Cell.click name cmd args icon) ::
              (if 5 ≤ col + 1 then placeButtons self rest (row + 1) 0 (idx + 1)
               else placeButtons self rest row (col + 1) (idx + 1))
        | Button.menu name buttons icon =>
            (col, row,
              Cell.navTo
                (CommanderPlugin.new_with_parent { name := name, buttons := buttons } self)
                name icon) ::
              (if 5 ≤ col + 1 then placeButtons self rest (row + 1) 0 (idx + 1)
               else placeButtons self rest row (col + 1) (idx + 1))
        | Button.back _ _ =>
            if 5 ≤ col + 1 then placeButtons self rest (row + 1) 0 (idx + 1)
            else placeButtons self rest row (col + 1) (idx + 1)

/-- create_view_from_menu from button.rs: place the declared buttons from
(0,0) with index 0, then, when a parent exists, bind the cell at column 4,
row 2 to a navigation back to the parent named Back with the arrow_back
icon. -/
def create_view_from_menu (self : CommanderPlugin) : List (Nat × Nat × Cell) :=
  placeButtons self self.menu.buttons 0 0 0 ++
    (match self.parent with
     | some parent => [(4, 2, Cell.navTo parent "Back" (some "arrow_back"))]
     | none => [])

/-! Concrete fixtures used by witnesses and counterexamples. -/

/-- A run whose action command exits 1 (no probe consulted). -/
def envNonzeroExit : ToggleEnv :=
  { probe1 := Except.ok { code := some 0, stdout := "", stderr := "" }
    cmdOutcome := Except.ok (1, "out", "err")
    probe2 := Except.ok { code := some 0, stdout := "", stderr := "" } }

/-- A run with a probe reporting Off (exit 1), then an action command that
exits 1. -/
def envProbeOffCmdFails : ToggleEnv :=
  { probe1 := Except.ok { code := some 1, stdout := "", stderr := "" }
    cmdOutcome := Except.ok (1, "", "")
    probe2 := Except.ok { code := some 0, stdout := "", stderr := "" } }

/-- A run with a probe reporting Off, an action command exiting 0, and a
verification probe that fails to execute. -/
def envVerifyExecError : ToggleEnv :=
  { probe1 := Except.ok { code := some 1, stdout := "", stderr := "" }
    cmdOutcome := Except.ok (0, "", "")
    probe2 := Except.error "boom" }

/-- A run with a probe reporting Off, an action command exiting 0, and a
verification probe reporting Off again (exit 1). -/
def envVerifyOff : ToggleEnv :=
  { probe1 := Except.ok { code := some 1, stdout := "", stderr := "" }
    cmdOutcome := Except.ok (0, "", "")
    probe2 := Except.ok { code := some 1, stdout := "", stderr := "" } }

/-- An indicator configuration with one success and one failure
indicator. -/
def indicatorConfig : ProbeConfig :=
  { timeout_ms := 5000
    empty_stdout_is_success := true
    success_indicators := ["enabled"]
    failure_indicators := ["disabled"] }

/-- An indicator configuration with a success indicator and no failure
indicators. -/
def activeConfig : ProbeConfig :=
  { timeout_ms := 5000
    empty_stdout_is_success := true
    success_indicators := ["active"]
    failure_indicators := [] }

/-- A completed probe process that exited 2 while printing a success
indicator. -/
def activeExit2 : ProcessOutput :=
  { code := some 2, stdout := "active", stderr := "" }

/-- A root menu declaring 15 command buttons. -/
def root15Menu : Menu :=
  { name := "root", buttons := List.replicate 15 (Button.command "x" "c" [] none) }

/-- A menu declaring a command, a user Back entry, then another command. -/
def backGapMenu : Menu :=
  { name := "m"
    buttons := [Button.command "A" "a" [] none,
                Button.back "Back" none,
                Button.command "B" "b" [] none] }

/-- A root plugin used as parent in navigation fixtures. -/
def rootPlugin : CommanderPlugin := CommanderPlugin.new { name := "root", buttons := [] }

/-- A child plugin whose parent is rootPlugin. -/
def childPlugin : CommanderPlugin :=
  CommanderPlugin.new_with_parent { name := "child", buttons := [] } rootPlugin

/-! Theorems settling the claims. -/

/-- Helper: a bounded existential witness makes List.any true. -/
theorem list_any_true {l : List String} {p : String → Bool}
    (h : ∃ x ∈ l, p x = true) : l.any p = true :=
  List.any_eq_true.mpr h

/-- Helper: List.any is false when the predicate fails on every element. -/
theorem list_any_false {l : List String} {p : String → Bool}
    (h : ∀ x ∈ l, p x = false) : l.any p = false := by
  cases hany : l.any p
  · rfl
  · obtain ⟨x, hx, hpx⟩ := List.any_eq_true.mp hany
    rw [h x hx] at hpx
    cases hpx

/-- Helper: how verified_state follows the classification of the
verification probe result. -/
theorem verified_state_eq (pr : ProbeResult) (expected : ToggleState) :
    (pr.is_success = true → verified_state pr expected = ToggleState.On) ∧
    (pr.is_command_failure = true → verified_state pr expected = ToggleState.Off) ∧
    (pr.is_execution_error = true → verified_state pr expected = expected) := by
  rcases pr with ⟨s, c, o, e⟩
  cases s <;> rcases c with _ | a <;>
    simp [ProbeResult.is_success, ProbeResult.is_command_failure,
      ProbeResult.is_execution_error, verified_state]
  intro h1 h2
  exact absurd h1 h2

/-- Claim C8: ToggleState.toggle maps On to Off, Off to On and Unknown to
Unknown; for every known state toggling twice is the identity; applying
toggle any positive number of times to Unknown yields Unknown. -/
theorem toggle_state_algebra :
    (ToggleState.On.toggle = ToggleState.Off) ∧
    (ToggleState.Off.toggle = ToggleState.On) ∧
    (ToggleState.Unknown.toggle = ToggleState.Unknown) ∧
    (∀ s : ToggleState, s = ToggleState.On ∨ s = ToggleState.Off →
      s.toggle.toggle = s) ∧
    (∀ n : Nat, 1 ≤ n →
      ToggleState.toggle^[n] ToggleState.Unknown = ToggleState.Unknown) := by
  refine ⟨rfl, rfl, rfl, ?_, ?_⟩
  · rintro s (rfl | rfl) <;> rfl
  · intro n _
    exact Function.iterate_fixed rfl n

/-- Witness for C8 at s = On and n = 3. -/
theorem toggle_state_algebra_witness :
    (ToggleState.On = ToggleState.On ∨ ToggleState.On = ToggleState.Off) ∧
    ToggleState.On.toggle.toggle = ToggleState.On ∧
    1 ≤ 3 ∧
    ToggleState.toggle^[3] ToggleState.Unknown = ToggleState.Unknown :=
  ⟨Or.inl rfl,
   toggle_state_algebra.2.2.2.1 ToggleState.On (Or.inl rfl),
   by decide,
   toggle_state_algebra.2.2.2.2 3 (by decide)⟩

/-- Claim C4: the action selection of execute_toggle_command.  Single mode
always selects the configured command with the target state opposite the
current one and Unknown treated as about to turn On; Separate mode selects
off_command with target Off when currently On, and on_command with target On
when currently Off or Unknown. -/
theorem select_action_spec :
    ∀ (command : String) (args : List String) (on_command : String)
      (on_args : List String) (off_command : String) (off_args : List String),
      select_action (ToggleMode.single command args) ToggleState.On =
        (command, args, ToggleState.Off) ∧
      select_action (ToggleMode.single command args) ToggleState.Off =
        (command, args, ToggleState.On) ∧
      select_action (ToggleMode.single command args) ToggleState.Unknown =
        (command, args, ToggleState.On) ∧
      select_action (ToggleMode.separate on_command on_args off_command off_args)
        ToggleState.On = (off_command, off_args, ToggleState.Off) ∧
      select_action (ToggleMode.separate on_command on_args off_command off_args)
        ToggleState.Off = (on_command, on_args, ToggleState.On) ∧
      select_action (ToggleMode.separate on_command on_args off_command off_args)
        ToggleState.Unknown = (on_command, on_args, ToggleState.On) := by
  intro command args on_command on_args off_command off_args
  exact ⟨rfl, rfl, rfl, rfl, rfl, rfl⟩

/-- Claim C5: an action command exiting non-zero yields a failure result
carrying the pre-attempt current state, an error message embedding the exit
code, and leaves the store exactly as it stood after step 1 (no step 4-5
update). -/
theorem toggle_nonzero_exit_fails_without_update :
    ∀ (button_name : String) (mode : ToggleMode) (probe_command : Option String)
      (env : ToggleEnv) (store : Store) (ec : Int) (so se : String),
      env.cmdOutcome = Except.ok (ec, so, se) → ec ≠ 0 →
      let r := execute_toggle_command button_name mode probe_command env store
      let cs := current_state_and_store button_name probe_command env store
      r.1.success = false ∧
      r.1.new_state = cs.1 ∧
      r.1.exit_code = some ec ∧
      r.1.error_message =
        some ("Toggle command failed with exit code " ++ toString ec) ∧
      r.2 = cs.2 := by
  intro button_name mode probe_command env store ec so se hcmd hec
  simp only [execute_toggle_command, hcmd, if_neg hec]
  exact ⟨rfl, rfl, rfl, rfl, trivial⟩

/-- Witness for C5: exit code 1 on a probe-free single-mode press. -/
theorem toggle_nonzero_exit_fails_without_update_witness :
    envNonzeroExit.cmdOutcome = Except.ok (1, "out", "err") ∧
    (1 : Int) ≠ 0 ∧
    (let r := execute_toggle_command "b" (ToggleMode.single "cmd" []) none
        envNonzeroExit emptyStore
     let cs := current_state_and_store "b" none envNonzeroExit emptyStore
     r.1.success = false ∧
     r.1.new_state = cs.1 ∧
     r.1.exit_code = some 1 ∧
     r.1.error_message = some ("Toggle command failed with exit code " ++ toString (1 : Int)) ∧
     r.2 = cs.2) :=
  ⟨rfl, by decide,
   toggle_nonzero_exit_fails_without_update "b" (ToggleMode.single "cmd" []) none
     envNonzeroExit emptyStore 1 "out" "err" rfl (by decide)⟩

/-- Claim C9: with a probe configured, the step-1 probed state is written
into the store, and when the action command then fails (spawn error or
non-zero exit) that write survives: the final store holds the probed state,
which is also the returned new_state. -/
theorem probe_write_survives_failed_action :
    ∀ (button_name : String) (mode : ToggleMode) (p : String) (env : ToggleEnv)
      (store : Store),
      let probed := probe_to_state (execute_probe_command env.probe1)
      (current_state_and_store button_name (some p) env store).2 =
        set_state store button_name probed ∧
      (cmd_attempt_failed env.cmdOutcome →
        (execute_toggle_command button_name mode (some p) env store).2 =
          set_state store button_name probed ∧
        (execute_toggle_command button_name mode (some p) env store).1.new_state =
          probed) := by
  intro button_name mode p env store
  refine ⟨rfl, ?_⟩
  intro hfail
  cases hcmd : env.cmdOutcome with
  | ok triple =>
      obtain ⟨ec, so, se⟩ := triple
      rw [hcmd] at hfail
      have hec : ec ≠ 0 := hfail
      simp only [execute_toggle_command, hcmd, if_neg hec]
      exact ⟨rfl, rfl⟩
  | error e =>
      simp only [execute_toggle_command, hcmd]
      exact ⟨rfl, rfl⟩

/-- Witness for C9: probe reports Off, action command exits 1. -/
theorem probe_write_survives_failed_action_witness :
    cmd_attempt_failed envProbeOffCmdFails.cmdOutcome ∧
    (let probed := probe_to_state (execute_probe_command envProbeOffCmdFails.probe1)
     (execute_toggle_command "b" (ToggleMode.single "cmd" []) (some "probe")
        envProbeOffCmdFails emptyStore).2 = set_state emptyStore "b" probed ∧
     (execute_toggle_command "b" (ToggleMode.single "cmd" []) (some "probe")
        envProbeOffCmdFails emptyStore).1.new_state = probed) := by
  have h : cmd_attempt_failed envProbeOffCmdFails.cmdOutcome := by
    show (1 : Int) ≠ 0
    decide
  exact ⟨h,
    (probe_write_survives_failed_action "b" (ToggleMode.single "cmd" []) "probe"
      envProbeOffCmdFails emptyStore).2 h⟩

/-- Helper: every cell emitted by the placing loop comes from a Command
button (a click cell) or from a Menu button (a navigation cell to a child
node parented at self) — never from a Back button. -/
theorem placeButtons_cells (self : CommanderPlugin) :
    ∀ (bs : List Button) (row col idx : Nat) (entry : Nat × Nat × Cell),
      entry ∈ placeButtons self bs row col idx →
      (∃ nm cmd args icon, entry.2.2 = Cell.click nm cmd args icon) ∨
      (∃ nm bs2 icon, entry.2.2 =
        Cell.navTo (CommanderPlugin.new_with_parent { name := nm, buttons := bs2 } self)
          nm icon) := by
  intro bs
  induction bs with
  | nil =>
      intro row col idx entry h
      simp [placeButtons] at h
  | cons b rest ih =>
      intro row col idx entry h
      by_cases h14 : idx = 14
      · simp [placeButtons, h14] at h
      · by_cases h3 : 3 ≤ row
        · cases b <;> simp [placeButtons, h14, h3] at h
        · cases b with
          | command nm cmd args icon =>
              simp only [placeButtons, h14, h3, if_false, ite_false,
                List.mem_cons] at h
              rcases h with rfl | hmem
              · exact Or.inl ⟨nm, cmd, args, icon, rfl⟩
              · by_cases h5 : 5 ≤ col + 1
                · rw [if_pos h5] at hmem
                  exact ih _ _ _ _ hmem
                · rw [if_neg h5] at hmem
                  exact ih _ _ _ _ hmem
          | menu nm bs2 icon =>
              simp only [placeButtons, h14, h3, if_false, ite_false,
                List.mem_cons] at h
              rcases h with rfl | hmem
              · exact Or.inr ⟨nm, bs2, icon, rfl⟩
              · by_cases h5 : 5 ≤ col + 1
                · rw [if_pos h5] at hmem
                  exact ih _ _ _ _ hmem
                · rw [if_neg h5] at hmem
                  exact ih _ _ _ _ hmem
          | back nm icon =>
              simp only [placeButtons, h14, h3, if_false, ite_false] at h
              by_cases h5 : 5 ≤ col + 1
              · rw [if_pos h5] at h
                exact ih _ _ _ _ h
              · rw [if_neg h5] at h
                exact ih _ _ _ _ h

/-- Helper: starting from counters satisfying the loop invariant
(col = idx mod 5, row = idx div 5, idx at most 14), the placing loop never
emits a cell at column 4, row 2 — that grid position is index 14, which
triggers the reservation instead of a placement. -/
theorem placeButtons_not_cell14 (self : CommanderPlugin) :
    ∀ (bs : List Button) (row col idx : Nat),
      col = idx % 5 → row = idx / 5 → idx ≤ 14 →
      ∀ entry ∈ placeButtons self bs row col idx,
        ¬(entry.1 = 4 ∧ entry.2.1 = 2) := by
  intro bs
  induction bs with
  | nil =>
      intro row col idx hc hr hi entry h
      simp [placeButtons] at h
  | cons b rest ih =>
      intro row col idx hc hr hi entry h
      by_cases h14 : idx = 14
      · simp [placeButtons, h14] at h
      · have h3 : ¬ 3 ≤ row := by omega
        cases b with
        | command nm cmd args icon =>
            simp only [placeButtons, h14, h3, if_false, ite_false,
              List.mem_cons] at h
            rcases h with rfl | hmem
            · rintro ⟨hc4, hr2⟩
              simp only [] at hc4 hr2
              omega
            · by_cases h5 : 5 ≤ col + 1
              · rw [if_pos h5] at hmem
                exact ih _ _ _ (by omega) (by omega) (by omega) entry hmem
              · rw [if_neg h5] at hmem
                exact ih _ _ _ (by omega) (by omega) (by omega) entry hmem
        | menu nm bs2 icon =>
            simp only [placeButtons, h14, h3, if_false, ite_false,
              List.mem_cons] at h
            rcases h with rfl | hmem
            · rintro ⟨hc4, hr2⟩
              simp only [] at hc4 hr2
              omega
            · by_cases h5 : 5 ≤ col + 1
              · rw [if_pos h5] at hmem
                exact ih _ _ _ (by omega) (by omega) (by omega) entry hmem
              · rw [if_neg h5] at hmem
                exact ih _ _ _ (by omega) (by omega) (by omega) entry hmem
        | back nm icon =>
            simp only [placeButtons, h14, h3, if_false, ite_false] at h
            by_cases h5 : 5 ≤ col + 1
            · rw [if_pos h5] at h
              exact ih _ _ _ (by omega) (by omega) (by omega) entry h
            · rw [if_neg h5] at h
              exact ih _ _ _ (by omega) (by omega) (by omega) entry h

/-- Counterexample to C2 as stated: in a menu declaring command A, a user
Back entry, then command B, the rendered view places B at column 2 — the
Back entry's declared cell (column 1) stays empty and B does not shift to
fill it. -/
theorem back_gap_counterexample :
    create_view_from_menu (CommanderPlugin.new backGapMenu) =
      [(0, 0, Cell.click "A" "a" [] none), (2, 0, Cell.click "B" "b" [] none)] ∧
    (¬ ∃ cell : Cell, ((1 : Nat), (0 : Nat), cell) ∈
      create_view_from_menu (CommanderPlugin.new backGapMenu)) := by
  refine ⟨rfl, ?_⟩
  rintro ⟨cell, hmem⟩
  have : ((1 : Nat), (0 : Nat), cell) ∈
      [((0 : Nat), (0 : Nat), Cell.click "A" "a" [] none),
       ((2 : Nat), (0 : Nat), Cell.click "B" "b" [] none)] := hmem
  simp [Prod.ext_iff] at this

/-- Claim C2 amended: a user-declared Back button is never rendered as its
own cell (every rendered cell comes from a Command or Menu button), but its
declared position is consumed: the loop skips the Back entry while
advancing the position counters, so subsequent buttons are placed after the
gap rather than shifting to fill it. -/
theorem back_button_suppressed_but_consumes_cell :
    (∀ (self : CommanderPlugin) (bs : List Button) (row col idx : Nat)
      (entry : Nat × Nat × Cell), entry ∈ placeButtons self bs row col idx →
      (∃ nm cmd args icon, entry.2.2 = Cell.click nm cmd args icon) ∨
      (∃ nm bs2 icon, entry.2.2 =
        Cell.navTo (CommanderPlugin.new_with_parent { name := nm, buttons := bs2 } self)
          nm icon)) ∧
    (∀ (self : CommanderPlugin) (nm : String) (icon : Option String)
      (rest : List Button) (row col idx : Nat), idx ≠ 14 → row < 3 →
      placeButtons self (Button.back nm icon :: rest) row col idx =
        if 5 ≤ col + 1 then placeButtons self rest (row + 1) 0 (idx + 1)
        else placeButtons self rest row (col + 1) (idx + 1)) ∧
    (create_view_from_menu (CommanderPlugin.new backGapMenu) =
      [(0, 0, Cell.click "A" "a" [] none), (2, 0, Cell.click "B" "b" [] none)]) := by
  refine ⟨placeButtons_cells, ?_, rfl⟩
  intro self nm icon rest row col idx h14 hrow
  have h3 : ¬ 3 ≤ row := by omega
  simp [placeButtons, h14, h3]

/-- Witness for C2 amended: the Back entry of the concrete menu is skipped
with its cell consumed, and the cell rendered at the origin comes from
command A. -/
theorem back_button_suppressed_but_consumes_cell_witness :
    ((1 : Nat) ≠ 14 ∧ (0 : Nat) < 3 ∧
      placeButtons (CommanderPlugin.new backGapMenu)
          [Button.back "Back" none, Button.command "B" "b" [] none] 0 1 1 =
        if 5 ≤ 1 + 1 then
          placeButtons (CommanderPlugin.new backGapMenu)
            [Button.command "B" "b" [] none] (0 + 1) 0 (1 + 1)
        else
          placeButtons (CommanderPlugin.new backGapMenu)
            [Button.command "B" "b" [] none] 0 (1 + 1) (1 + 1)) ∧
    (((0 : Nat), (0 : Nat), Cell.click "A" "a" [] none) ∈
      placeButtons (CommanderPlugin.new backGapMenu) backGapMenu.buttons 0 0 0 ∧
      ((∃ nm cmd args icon,
          (((0 : Nat), (0 : Nat), Cell.click "A" "a" [] none) :
            Nat × Nat × Cell).2.2 = Cell.click nm cmd args icon) ∨
        (∃ nm bs2 icon,
          (((0 : Nat), (0 : Nat), Cell.click "A" "a" [] none) :
            Nat × Nat × Cell).2.2 =
            Cell.navTo (CommanderPlugin.new_with_parent
              { name := nm, buttons := bs2 } (CommanderPlugin.new backGapMenu))
              nm icon))) :=
  ⟨⟨by decide, by decide,
    back_button_suppressed_but_consumes_cell.2.1 (CommanderPlugin.new backGapMenu)
      "Back" none [Button.command "B" "b" [] none] 0 1 1 (by decide) (by decide)⟩,
   List.mem_cons_self _ _,
   back_button_suppressed_but_consumes_cell.1 (CommanderPlugin.new backGapMenu)
     backGapMenu.buttons 0 0 0 ((0 : Nat), (0 : Nat), Cell.click "A" "a" [] none)
     (List.mem_cons_self _ _)⟩

/-- Counterexample to C3 as stated: a root menu (no parent) declaring 15
buttons renders only 14 of them — the bottom-right cell is reserved even
without a parent. -/
theorem root_menu_15_renders_14_counterexample :
    root15Menu.buttons.length = 15 ∧
    (CommanderPlugin.new root15Menu).parent = none ∧
    (create_view_from_menu (CommanderPlugin.new root15Menu)).length = 14 ∧
    (14 : Nat) ≠ 15 :=
  ⟨rfl, rfl, rfl, by decide⟩

/-- Claim C3 amended: the bottom-right cell (column 4, row 2 — grid index
14) is reserved unconditionally: no declared button is ever placed there,
even in a root menu, so a root menu declaring 15 buttons has only its first
14 rendered; a node with a parent has that cell bound to a navigation back
to its parent. -/
theorem bottom_right_back_reservation :
    (∀ (self parent : CommanderPlugin), self.parent = some parent →
      ((4, 2, Cell.navTo parent "Back" (some "arrow_back")) ∈
        create_view_from_menu self)) ∧
    (∀ (self : CommanderPlugin), self.parent = none →
      ∀ entry ∈ create_view_from_menu self, ¬(entry.1 = 4 ∧ entry.2.1 = 2)) ∧
    root15Menu.buttons.length = 15 ∧
    (create_view_from_menu (CommanderPlugin.new root15Menu)).length = 14 := by
  refine ⟨?_, ?_, rfl, rfl⟩
  · intro self parent hp
    simp [create_view_from_menu, hp]
  · intro self hp entry h
    rw [create_view_from_menu, hp] at h
    simp only [List.append_nil] at h
    exact placeButtons_not_cell14 self self.menu.buttons 0 0 0 rfl rfl
      (by omega) entry h

/-- Witness for C3 amended: the child plugin parented at the root gets its
bottom-right cell bound back to the root, and the root plugin itself places
nothing at column 4, row 2. -/
theorem bottom_right_back_reservation_witness :
    (childPlugin.parent = some rootPlugin ∧
      ((4, 2, Cell.navTo rootPlugin "Back" (some "arrow_back")) ∈
        create_view_from_menu childPlugin)) ∧
    (rootPlugin.parent = none ∧
      (((4 : Nat), (2 : Nat), Cell.click "x" "c" [] none) ∈
          create_view_from_menu rootPlugin →
        ¬((4 : Nat) = 4 ∧ (2 : Nat) = 2))) :=
  ⟨⟨rfl, bottom_right_back_reservation.1 childPlugin rootPlugin rfl⟩,
   ⟨rfl, fun h => bottom_right_back_reservation.2.1 rootPlugin rfl _ h⟩⟩

/-- Claim C6: custom indicator evaluation precedence — any matching failure
indicator forces failure; otherwise any matching success indicator forces
success; otherwise trimmed-empty stdout classifies per
empty_stdout_is_success; otherwise no custom classification (fall back to
the exit code). -/
theorem evaluate_custom_indicators_precedence :
    ∀ (stdout : String) (config : ProbeConfig),
      ((∃ ind ∈ config.failure_indicators, strContains stdout ind = true) →
        evaluate_custom_indicators stdout config = some false) ∧
      ((∀ ind ∈ config.failure_indicators, strContains stdout ind = false) →
        (∃ ind ∈ config.success_indicators, strContains stdout ind = true) →
        evaluate_custom_indicators stdout config = some true) ∧
      ((∀ ind ∈ config.failure_indicators, strContains stdout ind = false) →
        (∀ ind ∈ config.success_indicators, strContains stdout ind = false) →
        trimIsEmpty stdout = true →
        evaluate_custom_indicators stdout config = some config.empty_stdout_is_success) ∧
      ((∀ ind ∈ config.failure_indicators, strContains stdout ind = false) →
        (∀ ind ∈ config.success_indicators, strContains stdout ind = false) →
        trimIsEmpty stdout = false →
        evaluate_custom_indicators stdout config = none) := by
  intro stdout config
  refine ⟨?_, ?_, ?_, ?_⟩
  · intro hex
    simp [evaluate_custom_indicators, list_any_true hex]
  · intro hallf hex
    simp [evaluate_custom_indicators, list_any_false hallf, list_any_true hex]
  · intro hallf halls hemp
    simp [evaluate_custom_indicators, list_any_false hallf, list_any_false halls, hemp]
  · intro hallf halls hemp
    simp [evaluate_custom_indicators, list_any_false hallf, list_any_false halls, hemp]

/-- Witness for C6: output matching both indicator kinds classifies as
failure; an all-whitespace output with no indicator match classifies per
empty_stdout_is_success. -/
theorem evaluate_custom_indicators_precedence_witness :
    (∃ ind ∈ indicatorConfig.failure_indicators,
      strContains "enabled but disabled" ind = true) ∧
    evaluate_custom_indicators "enabled but disabled" indicatorConfig = some false ∧
    ((∀ ind ∈ indicatorConfig.failure_indicators, strContains "  " ind = false) ∧
      (∀ ind ∈ indicatorConfig.success_indicators, strContains "  " ind = false) ∧
      trimIsEmpty "  " = true) ∧
    evaluate_custom_indicators "  " indicatorConfig = some true ∧
    ((∀ ind ∈ indicatorConfig.failure_indicators, strContains "\x0B" ind = false) ∧
      (∀ ind ∈ indicatorConfig.success_indicators, strContains "\x0B" ind = false) ∧
      trimIsEmpty "\x0B" = true) ∧
    evaluate_custom_indicators "\x0B" indicatorConfig = some true :=
  ⟨by decide,
   (evaluate_custom_indicators_precedence "enabled but disabled" indicatorConfig).1
     (by decide),
   ⟨by decide, by decide, by decide⟩,
   (evaluate_custom_indicators_precedence "  " indicatorConfig).2.2.1
     (by decide) (by decide) (by decide),
   ⟨by decide, by decide, by decide⟩,
   (evaluate_custom_indicators_precedence "\x0B" indicatorConfig).2.2.1
     (by decide) (by decide) (by decide)⟩

/-- Counterexample to C7 as stated: a completed probe that exits 2 while
printing the configured success indicator (and matching no failure
indicator) yields a ProbeResult whose success field is true but whose
is_success classification is false — it does not classify as success. -/
theorem probe_custom_success_exit2_counterexample :
    strContains activeExit2.stdout "active" = true ∧
    activeConfig.failure_indicators = [] ∧
    activeExit2.code = some 2 ∧
    (execute_probe_command_with_config activeConfig
      (SpawnOutcome.completed activeExit2)).success = true ∧
    (execute_probe_command_with_config activeConfig
      (SpawnOutcome.completed activeExit2)).is_success = false ∧
    (execute_probe_command_with_config activeConfig
      (SpawnOutcome.completed activeExit2)).is_command_failure = false :=
  ⟨rfl, rfl, rfl, rfl, rfl, rfl⟩

/-- Claim C7 amended: a completed probe whose stdout matches a success
indicator and no failure indicator gets success forced regardless of exit
code — the ProbeResult's success field is true and it is neither a command
failure nor an execution error; the is_success classification additionally
requires the recorded exit code to be 0. -/
theorem probe_custom_success_forces_success :
    ∀ (config : ProbeConfig) (output : ProcessOutput),
      (∀ ind ∈ config.failure_indicators, strContains output.stdout ind = false) →
      (∃ ind ∈ config.success_indicators, strContains output.stdout ind = true) →
      (execute_probe_command_with_config config
        (SpawnOutcome.completed output)).success = true ∧
      (execute_probe_command_with_config config
        (SpawnOutcome.completed output)).is_command_failure = false ∧
      (execute_probe_command_with_config config
        (SpawnOutcome.completed output)).is_execution_error = false ∧
      ((execute_probe_command_with_config config
        (SpawnOutcome.completed output)).is_success = true ↔ output.code.getD 0 = 0) := by
  intro config output hallf hex
  have hcustom : evaluate_custom_indicators output.stdout config = some true := by
    simp [evaluate_custom_indicators, list_any_false hallf, list_any_true hex]
  simp [execute_probe_command_with_config, hcustom, ProbeResult.mkSuccess,
    ProbeResult.is_command_failure, ProbeResult.is_execution_error,
    ProbeResult.is_success]

/-- Witness for C7 amended, at the exit-2 success-indicator probe. -/
theorem probe_custom_success_forces_success_witness :
    (∀ ind ∈ activeConfig.failure_indicators,
      strContains activeExit2.stdout ind = false) ∧
    (∃ ind ∈ activeConfig.success_indicators,
      strContains activeExit2.stdout ind = true) ∧
    ((execute_probe_command_with_config activeConfig
        (SpawnOutcome.completed activeExit2)).success = true ∧
      (execute_probe_command_with_config activeConfig
        (SpawnOutcome.completed activeExit2)).is_command_failure = false ∧
      (execute_probe_command_with_config activeConfig
        (SpawnOutcome.completed activeExit2)).is_execution_error = false ∧
      ((execute_probe_command_with_config activeConfig
        (SpawnOutcome.completed activeExit2)).is_success = true ↔
        activeExit2.code.getD 0 = 0)) :=
  ⟨by decide, by decide,
   probe_custom_success_forces_success activeConfig activeExit2 (by decide) (by decide)⟩

/-- Counterexample to C1 as stated: with a probe configured, action exit 0,
and a verification probe that fails to execute (an execution error), the
code keeps the optimistic expected state On — it does not map the
execution error to Unknown as step 1 would. -/
theorem toggle_verify_exec_error_counterexample :
    (execute_probe_command envVerifyExecError.probe2).is_execution_error = true ∧
    envVerifyExecError.cmdOutcome = Except.ok ((0 : Int), "", "") ∧
    (execute_toggle_command "b" (ToggleMode.single "cmd" []) (some "probe")
      envVerifyExecError emptyStore).1.new_state = ToggleState.On ∧
    get_state (execute_toggle_command "b" (ToggleMode.single "cmd" []) (some "probe")
      envVerifyExecError emptyStore).2 "b" = ToggleState.On ∧
    ToggleState.On ≠ ToggleState.Unknown :=
  ⟨rfl, rfl, rfl, rfl, by decide⟩

/-- Claim C1 amended: on a toggle press with a probe configured whose action
command exits 0, verification maps probe success to On and probe
command-failure to Off, but a probe execution error keeps the optimistic
expected state (with a warning) rather than Unknown; the store is
overwritten with the verified value and the returned final state is the
verified value, never the optimistic target when they differ. -/
theorem toggle_verified_state_wins :
    ∀ (button_name : String) (mode : ToggleMode) (p : String) (env : ToggleEnv)
      (store : Store) (so se : String) (expected vstate : ToggleState),
      env.cmdOutcome = Except.ok (0, so, se) →
      expected = (select_action mode
        (current_state_and_store button_name (some p) env store).1).2.2 →
      vstate = verified_state (execute_probe_command env.probe2) expected →
      ((execute_probe_command env.probe2).is_success = true →
        vstate = ToggleState.On) ∧
      ((execute_probe_command env.probe2).is_command_failure = true →
        vstate = ToggleState.Off) ∧
      ((execute_probe_command env.probe2).is_execution_error = true →
        vstate = expected) ∧
      (execute_toggle_command button_name mode (some p) env store).1.success = true ∧
      (execute_toggle_command button_name mode (some p) env store).1.new_state = vstate ∧
      get_state (execute_toggle_command button_name mode (some p) env store).2
        button_name = vstate := by
  intro button_name mode p env store so se expected vstate hcmd hexp hv
  subst hexp
  subst hv
  have hmaps := verified_state_eq (execute_probe_command env.probe2)
    (select_action mode
      (current_state_and_store button_name (some p) env store).1).2.2
  refine ⟨hmaps.1, hmaps.2.1, hmaps.2.2, ?_, ?_, ?_⟩
  · simp [execute_toggle_command, hcmd, ToggleCommandResult.mkSuccess]
  · simp [execute_toggle_command, hcmd, ToggleCommandResult.mkSuccess]
  · simp [execute_toggle_command, hcmd, get_state, set_state]

/-- Witness for C1 amended: probe reports Off, single-mode target is On, the
action exits 0, and the verification probe reports Off again — the verified
value Off wins over the optimistic On in both the result and the store. -/
theorem toggle_verified_state_wins_witness :
    envVerifyOff.cmdOutcome = Except.ok ((0 : Int), "", "") ∧
    ToggleState.On = (select_action (ToggleMode.single "cmd" [])
      (current_state_and_store "b" (some "probe") envVerifyOff emptyStore).1).2.2 ∧
    ToggleState.Off =
      verified_state (execute_probe_command envVerifyOff.probe2) ToggleState.On ∧
    (execute_toggle_command "b" (ToggleMode.single "cmd" []) (some "probe")
      envVerifyOff emptyStore).1.new_state = ToggleState.Off ∧
    get_state (execute_toggle_command "b" (ToggleMode.single "cmd" []) (some "probe")
      envVerifyOff emptyStore).2 "b" = ToggleState.Off :=
  ⟨rfl, rfl, rfl,
   (toggle_verified_state_wins "b" (ToggleMode.single "cmd" []) "probe" envVerifyOff
     emptyStore "" "" ToggleState.On ToggleState.Off rfl rfl rfl).2.2.2.2.1,
   (toggle_verified_state_wins "b" (ToggleMode.single "cmd" []) "probe" envVerifyOff
     emptyStore "" "" ToggleState.On ToggleState.Off rfl rfl rfl).2.2.2.2.2⟩

/-- Counterexample to C10 as stated: the interleaving read-read-write-write
of two concurrent toggle_state calls on the name x, starting from On, ends
with the store Off and both calls returning Off, whereas two sequential
toggles end On: an update is lost. -/
theorem toggle_state_lost_update_counterexample :
    (run_schedule "x" [true, false, true, false]
        (TogglePhase.start, TogglePhase.start, set_state emptyStore "x" ToggleState.On)).1 =
      TogglePhase.finished ToggleState.Off ∧
    (run_schedule "x" [true, false, true, false]
        (TogglePhase.start, TogglePhase.start, set_state emptyStore "x" ToggleState.On)).2.1 =
      TogglePhase.finished ToggleState.Off ∧
    get_state (run_schedule "x" [true, false, true, false]
        (TogglePhase.start, TogglePhase.start, set_state emptyStore "x" ToggleState.On)).2.2 "x" =
      ToggleState.Off ∧
    get_state (toggle_state "x"
        (toggle_state "x" (set_state emptyStore "x" ToggleState.On)).2).2 "x" =
      ToggleState.On ∧
    ToggleState.Off ≠ ToggleState.On :=
  ⟨rfl, rfl, rfl, rfl, by decide⟩

/-- Claim C10 amended: each toggle_state call computes get(name).toggle(),
writes it and returns it, but the read and the write are separately locked
atomic steps, so two concurrent toggle_state calls on one name can
interleave and lose an update. -/
theorem toggle_state_rmw_not_atomic :
    (∀ (button_name : String) (s : Store),
      (toggle_state button_name s).1 = (get_state s button_name).toggle ∧
      (toggle_state button_name s).2 =
        set_state s button_name ((get_state s button_name).toggle)) ∧
    (∃ schedule : List Bool,
      (run_schedule "x" schedule
          (TogglePhase.start, TogglePhase.start, set_state emptyStore "x" ToggleState.On)).1 =
        TogglePhase.finished ToggleState.Off ∧
      (run_schedule "x" schedule
          (TogglePhase.start, TogglePhase.start, set_state emptyStore "x" ToggleState.On)).2.1 =
        TogglePhase.finished ToggleState.Off ∧
      get_state (run_schedule "x" schedule
          (TogglePhase.start, TogglePhase.start, set_state emptyStore "x" ToggleState.On)).2.2 "x" =
        ToggleState.Off) :=
  ⟨fun _ _ => ⟨rfl, rfl⟩, ⟨[true, false, true, false], rfl, rfl, rfl⟩⟩

end StreamdeckNix
